import Mathlib

/-!
Shallow embedding of the rotation-inference engine of
`pdf-direction-corrector` (`src/main.py`), together with theorems settling
the specification claims about it.

Coordinates are modelled as exact rationals; the Euclidean distance used by
the similarity score takes a real square root, so the similarity layer lives
in `ℝ`.
-/

/-- A bounding box `(x0, y0, x1, y1)`, as passed around in `main.py`. -/
structure BBox where
  x0 : ℚ
  y0 : ℚ
  x1 : ℚ
  y1 : ℚ
deriving DecidableEq

/-- One raw text span as delivered by the document layer:
`{text: ..., bbox: ...}` from `page.get_text("dict")`. -/
structure Span where
  text : String
  bbox : BBox
deriving DecidableEq

/-- A line is a list of spans (`line["spans"]`). -/
abbrev Line := List Span

/-- One block of `text_dict["blocks"]`; image blocks carry no `"lines"` key,
modelled by `none`. -/
structure Block where
  lines : Option (List Line)

/-- The slice of a `fitz` page that the engine reads: display rect
dimensions, the mediabox (native) dimensions when available, the rotation
metadata, and the nested span structure. -/
structure Page where
  blocks : List Block
  width : ℚ
  height : ℚ
  mediabox : Option (ℚ × ℚ)
  rotation : ℤ

/-- One entry of the `text_positions` list built by `extract_text_positions`:
a dict with keys `text`, `normalized_x`, `normalized_y` and (only when built
by the extractor, not by `apply_rotation_to_positions`) `original_bbox`. -/
structure Position where
  text : String
  normalized_x : ℚ
  normalized_y : ℚ
  original_bbox : Option BBox
deriving DecidableEq

/-- `transform_coordinates_to_original` from `main.py`: maps a display-space
bbox back to native (rotation-0) space; unknown rotation values fall through
to the identity. -/
def transform_coordinates_to_original (bbox : BBox) (page_width page_height : ℚ)
    (rotation : ℤ) : BBox :=
  if rotation = 0 then
    bbox
  else if rotation = 90 then
    ⟨bbox.y0, page_width - bbox.x1, bbox.y1, page_width - bbox.x0⟩
  else if rotation = 180 then
    ⟨page_width - bbox.x1, page_height - bbox.y1,
     page_width - bbox.x0, page_height - bbox.y0⟩
  else if rotation = 270 then
    ⟨page_height - bbox.y1, bbox.x0, page_height - bbox.y0, bbox.x1⟩
  else
    bbox

/-- Python's `str.strip()` with no argument: remove whitespace from both
ends of the string. -/
def py_strip (s : String) : String :=
  String.mk (((s.data.dropWhile Char.isWhitespace).reverse.dropWhile
    Char.isWhitespace).reverse)

/-- The position record appended by `extract_text_positions` for one
qualifying span. -/
def make_anchor (page_width page_height original_width original_height : ℚ)
    (rotation : ℤ) (span : Span) : Position :=
  let original_bbox :=
    transform_coordinates_to_original span.bbox page_width page_height rotation
  { text := py_strip span.text
    normalized_x := (original_bbox.x0 + original_bbox.x1) / 2 / original_width
    normalized_y := (original_bbox.y0 + original_bbox.y1) / 2 / original_height
    original_bbox := some original_bbox }

/-- The per-span body of the extraction loop: trim, drop short fragments
(`if text and len(text) > 2`), otherwise build the anchor. -/
def span_anchor (page_width page_height original_width original_height : ℚ)
    (rotation : ℤ) (span : Span) : Option Position :=
  if py_strip span.text ≠ "" ∧ 2 < (py_strip span.text).length then
    some (make_anchor page_width page_height original_width original_height
      rotation span)
  else
    none

/-- `extract_text_positions` from `main.py`: iterate blocks / lines / spans
in order, keeping qualifying spans; mediabox falls back to the display
dimensions when unavailable. -/
def extract_text_positions (page : Page) : List Position :=
  (page.blocks.map (fun block =>
    match block.lines with
    | none => []
    | some lines =>
        (lines.map (fun line =>
          line.filterMap (span_anchor page.width page.height
            (page.mediabox.getD (page.width, page.height)).1
            (page.mediabox.getD (page.width, page.height)).2
            page.rotation))).flatten)).flatten

/-- All spans of a page in source order, flattening the block / line
nesting (blocks without a `"lines"` key contribute nothing). -/
def page_spans (page : Page) : List Span :=
  ((page.blocks.filterMap Block.lines).flatten).flatten

/-- `analyze_absolute_position` from `main.py`: centroid-mean classification
with strict thresholds, 0 on an empty list. -/
def analyze_absolute_position (positions : List Position) : ℤ :=
  if positions = [] then 0
  else
    let avg_x : ℚ := (positions.map Position.normalized_x).sum / positions.length
    let avg_y : ℚ := (positions.map Position.normalized_y).sum / positions.length
    if avg_y < 0.4 ∧ avg_x < 0.6 then 0
    else if avg_y > 0.6 ∧ avg_x > 0.4 then 180
    else if avg_x < 0.4 ∧ avg_y > 0.4 then -90
    else if avg_x > 0.6 ∧ avg_y < 0.6 then 90
    else 0

/-- `get_rotation_from_metadata` from `main.py`. -/
def get_rotation_from_metadata (pdf_rotation : ℤ) : ℤ :=
  if pdf_rotation = 90 then -90
  else if pdf_rotation = 180 then 180
  else if pdf_rotation = 270 then 90
  else 0

/-- `apply_rotation_to_positions` from `main.py`: rotate each normalized
point within the unit square; the output dicts carry no `original_bbox`
key. -/
def apply_rotation_to_positions (positions : List Position)
    (rotation_angle : ℤ) : List Position :=
  positions.map (fun pos =>
    if rotation_angle = 0 then
      ⟨pos.text, pos.normalized_x, pos.normalized_y, none⟩
    else if rotation_angle = 90 then
      ⟨pos.text, 1 - pos.normalized_y, pos.normalized_x, none⟩
    else if rotation_angle = 180 then
      ⟨pos.text, 1 - pos.normalized_x, 1 - pos.normalized_y, none⟩
    else if rotation_angle = 270 then
      ⟨pos.text, pos.normalized_y, 1 - pos.normalized_x, none⟩
    else
      ⟨pos.text, pos.normalized_x, pos.normalized_y, none⟩)

/-- The Euclidean distance `((dx**2 + dy**2) ** 0.5)` between two
normalized positions. -/
noncomputable def distance (pos1 pos2 : Position) : ℝ :=
  Real.sqrt (((pos1.normalized_x - pos2.normalized_x) ^ 2 +
    (pos1.normalized_y - pos2.normalized_y) ^ 2 : ℚ) : ℝ)

/-- The inner minimization loop of `calculate_position_similarity`
(`best_distance` starts at `float('inf')` and keeps any strictly smaller
distance); `none` means the loop body never ran, i.e. `best_distance`
stayed infinite. -/
noncomputable def best_distance : List ℝ → Option ℝ
  | [] => none
  | d :: ds => some (ds.foldl (fun b x => if x < b then x else b) d)

/-- Per-anchor similarity `max(0, 1 - best_distance * 2)`; when
`best_distance` stayed infinite the similarity is 0. -/
noncomputable def anchor_similarity (pos1 : Position)
    (positions2 : List Position) : ℝ :=
  match best_distance (positions2.map (fun pos2 => distance pos1 pos2)) with
  | none => 0
  | some d => max 0 (1 - d * 2)

/-- `calculate_position_similarity` from `main.py`: 0 when either list is
empty, else the mean of the per-anchor similarities over `positions1`. -/
noncomputable def calculate_position_similarity
    (positions1 positions2 : List Position) : ℝ :=
  if positions1.length = 0 ∨ positions2.length = 0 then 0
  else (positions1.map (fun pos1 => anchor_similarity pos1 positions2)).sum /
    positions1.length

/-- Python's `max(d, key=d.get)` over the insertion-ordered score dict:
keep the current best, replacing it only on a strictly larger value, so the
first-seen maximal key wins. (Python raises on an empty dict; the engine
always supplies four entries, and `0` here is an arbitrary total value.) -/
noncomputable def py_max_by_val : List (ℤ × ℝ) → ℤ
  | [] => 0
  | kv :: rest => (rest.foldl (fun best x => if best.2 < x.2 then x else best) kv).1

/-- `compare_with_reference` from `main.py`. The entries of
`current_positions` never carry a `current_rotation` key, so
`current_positions[0].get('current_rotation', 0)` is the default 0. -/
noncomputable def compare_with_reference
    (current_positions reference_positions : List Position) : ℤ :=
  if current_positions.length = 0 ∨ reference_positions.length = 0 then 0
  else
    let rotation_scores : List (ℤ × ℝ) :=
      [0, 90, 180, 270].map (fun test_rotation =>
        (test_rotation,
         calculate_position_similarity
           (apply_rotation_to_positions current_positions test_rotation)
           reference_positions))
    let best_rotation := py_max_by_val rotation_scores
    let current_rotation : ℤ := 0
    let needed_rotation := (best_rotation - current_rotation) % 360
    if needed_rotation > 180 then needed_rotation - 360 else needed_rotation

/-- `analyze_text_orientation_comparative` from `main.py` (the reference
argument is a list at every call site reached from the controller). -/
noncomputable def analyze_text_orientation_comparative (page : Page)
    (reference_positions : List Position) : ℤ :=
  if extract_text_positions page = [] then
    get_rotation_from_metadata page.rotation
  else if reference_positions ≠ [] then
    compare_with_reference (extract_text_positions page) reference_positions
  else
    analyze_absolute_position (extract_text_positions page)

/-- The process-wide detection state of `main.py`: `_detection_method` and
`_reference_positions` (`none` models Python's `None`; `some []` models the
global holding an empty list). -/
structure DetState where
  detection_method : ℤ
  reference_positions : Option (List Position)

/-- `analyze_text_orientation` from `main.py` as a state transition: the
returned pair is (suggested delta, updated global state). In methods 2 and
3 the global is assigned `extract_text_positions(page)` before its
truthiness is tested, so an empty extraction still stores `some []`. -/
noncomputable def analyze_text_orientation (st : DetState) (page : Page) :
    ℤ × DetState :=
  if st.detection_method = 1 then
    (analyze_absolute_position (extract_text_positions page), st)
  else if st.detection_method = 2 then
    match st.reference_positions with
    | none =>
        if extract_text_positions page ≠ [] then
          (0, { st with reference_positions := some (extract_text_positions page) })
        else
          (analyze_absolute_position (extract_text_positions page),
           { st with reference_positions := some (extract_text_positions page) })
    | some ref => (analyze_text_orientation_comparative page ref, st)
  else
    match st.reference_positions with
    | none =>
        if extract_text_positions page ≠ [] then
          (0, { st with reference_positions := some (extract_text_positions page) })
        else
          (analyze_absolute_position (extract_text_positions page),
           { st with reference_positions := some (extract_text_positions page) })
    | some ref => (analyze_text_orientation_comparative page ref, st)

/-! ### Spec-side auxiliary definitions -/

/-- Arithmetic mean of `normalizedX` over a list of anchors. -/
def mean_x (positions : List Position) : ℚ :=
  (positions.map Position.normalized_x).sum / positions.length

/-- Arithmetic mean of `normalizedY` over a list of anchors. -/
def mean_y (positions : List Position) : ℚ :=
  (positions.map Position.normalized_y).sum / positions.length

/-- Display-space width of a page of native size `w × h` shown under
rotation `r`: the dimensions swap for 90 and 270. -/
def display_width (w h : ℚ) (r : ℤ) : ℚ :=
  if r = 90 ∨ r = 270 then h else w

/-- Display-space height of a page of native size `w × h` shown under
rotation `r`. -/
def display_height (w h : ℚ) (r : ℤ) : ℚ :=
  if r = 90 ∨ r = 270 then w else h

/-- Modelled from the spec: the forward display-space rotation that produced
display coordinates from native coordinates, i.e. the inverse of
`transform_coordinates_to_original`, for a page of native size `w × h`. -/
def forward_display_bbox (bbox : BBox) (w h : ℚ) (r : ℤ) : BBox :=
  if r = 90 then ⟨h - bbox.y1, bbox.x0, h - bbox.y0, bbox.x1⟩
  else if r = 180 then ⟨w - bbox.x1, h - bbox.y1, w - bbox.x0, h - bbox.y0⟩
  else if r = 270 then ⟨bbox.y0, w - bbox.x1, bbox.y1, w - bbox.x0⟩
  else bbox

/-- Position of a candidate rotation in the comparator's iteration order
`[0, 90, 180, 270]`. -/
def rot_index (r : ℤ) : ℕ :=
  if r = 0 then 0 else if r = 90 then 1 else if r = 180 then 2 else 3

/-- The candidate score assigned to `test_rotation` inside
`compare_with_reference`. -/
noncomputable def rotation_score (current reference : List Position)
    (test_rotation : ℤ) : ℝ :=
  calculate_position_similarity
    (apply_rotation_to_positions current test_rotation) reference

/-! ### Concrete inputs used by witnesses and the counterexample -/

/-- A sample anchor at the centre of the unit square. -/
def pos_center : Position := ⟨"sample", 1/2, 1/2, none⟩

/-- A sample anchor in the lower-right region. -/
def pos_lower_right : Position := ⟨"sample", 4/5, 4/5, none⟩

/-- A page with no text at all. -/
def empty_page : Page := ⟨[], 100, 100, none, 0⟩

/-- A page with no text and rotation metadata 90. -/
def empty_page_rot90 : Page := ⟨[], 100, 100, none, 90⟩

/-- A page with a single long-enough span centred in the lower-right
region of a 100 × 100 page. -/
def lower_right_page : Page :=
  ⟨[⟨some [[⟨"sample text", ⟨70, 70, 90, 90⟩⟩]]⟩], 100, 100, none, 0⟩

/-! ### Claim theorems -/

/-- C3: the Coordinate Transformer returns the input unchanged for rotation
0, `(y0, W-x1, y1, W-x0)` for 90, `(W-x1, H-y1, W-x0, H-y0)` for 180,
`(H-y1, x0, H-y0, x1)` for 270, and falls back to the identity for every
rotation outside `{0, 90, 180, 270}`. -/
theorem transform_coordinates_cases (bbox : BBox) (W H : ℚ) :
    transform_coordinates_to_original bbox W H 0 = bbox ∧
    transform_coordinates_to_original bbox W H 90 =
      ⟨bbox.y0, W - bbox.x1, bbox.y1, W - bbox.x0⟩ ∧
    transform_coordinates_to_original bbox W H 180 =
      ⟨W - bbox.x1, H - bbox.y1, W - bbox.x0, H - bbox.y0⟩ ∧
    transform_coordinates_to_original bbox W H 270 =
      ⟨H - bbox.y1, bbox.x0, H - bbox.y0, bbox.x1⟩ ∧
    (∀ r : ℤ, r ≠ 0 → r ≠ 90 → r ≠ 180 → r ≠ 270 →
      transform_coordinates_to_original bbox W H r = bbox) := by
  refine ⟨rfl, ?_, ?_, ?_, ?_⟩ <;>
    first
      | (intro r h0 h90 h180 h270
         simp [transform_coordinates_to_original, h0, h90, h180, h270])
      | simp [transform_coordinates_to_original]

/-- Witness for C3 at a concrete bbox, with the identity fallback
instantiated at rotation 45. -/
theorem transform_coordinates_cases_witness :
    transform_coordinates_to_original ⟨1, 2, 3, 4⟩ 10 20 45 = ⟨1, 2, 3, 4⟩ :=
  (transform_coordinates_cases ⟨1, 2, 3, 4⟩ 10 20).2.2.2.2 45
    (by decide) (by decide) (by decide) (by decide)

/-- C5: for `R ∈ {0, 90, 180, 270}`, applying the forward display-space
rotation (with matching display dimensions) to a native bbox and then the
Coordinate Transformer's inverse recovers the original bbox exactly. -/
theorem transform_round_trip (bbox : BBox) (w h : ℚ) (r : ℤ)
    (hr : r = 0 ∨ r = 90 ∨ r = 180 ∨ r = 270) :
    transform_coordinates_to_original (forward_display_bbox bbox w h r)
      (display_width w h r) (display_height w h r) r = bbox := by
  obtain ⟨x0, y0, x1, y1⟩ := bbox
  rcases hr with rfl | rfl | rfl | rfl <;>
    simp [forward_display_bbox, transform_coordinates_to_original,
      display_width, display_height]

/-- Witness for C5 at rotation 90 and a concrete bbox. -/
theorem transform_round_trip_witness :
    transform_coordinates_to_original
      (forward_display_bbox ⟨1, 2, 3, 4⟩ 50 80 90)
      (display_width 50 80 90) (display_height 50 80 90) 90 = ⟨1, 2, 3, 4⟩ :=
  transform_round_trip ⟨1, 2, 3, 4⟩ 50 80 90 (by decide)

/-- C1: the Absolute Classifier returns 0 on an empty list, and otherwise
applies exactly the four strict-inequality rules, in order, to the
arithmetic means of `normalizedX` and `normalizedY`, defaulting to 0. -/
theorem absolute_classifier_spec (positions : List Position) :
    analyze_absolute_position positions =
      if positions = [] then 0
      else if mean_y positions < 0.4 ∧ mean_x positions < 0.6 then 0
      else if mean_y positions > 0.6 ∧ mean_x positions > 0.4 then 180
      else if mean_x positions < 0.4 ∧ mean_y positions > 0.4 then -90
      else if mean_x positions > 0.6 ∧ mean_y positions < 0.6 then 90
      else 0 := rfl

/-- C8: the Relative Comparator returns 0 whenever either compared set is
empty, and the similarity score is 0 whenever either set is empty. -/
theorem comparator_empty_safe :
    (∀ reference : List Position, compare_with_reference [] reference = 0) ∧
    (∀ current : List Position, compare_with_reference current [] = 0) ∧
    (∀ reference : List Position, calculate_position_similarity [] reference = 0) ∧
    (∀ current : List Position, calculate_position_similarity current [] = 0) := by
  refine ⟨fun r => ?_, fun c => ?_, fun r => ?_, fun c => ?_⟩ <;>
    simp [compare_with_reference, calculate_position_similarity]

/-- C10: with a reference present but an empty current extraction, the
comparative path returns the metadata-derived delta, where metadata 90 maps
to -90, 180 to 180, 270 to 90 and anything else to 0. -/
theorem comparative_empty_uses_metadata (page : Page)
    (reference : List Position)
    (hc : extract_text_positions page = []) :
    analyze_text_orientation_comparative page reference =
      get_rotation_from_metadata page.rotation ∧
    get_rotation_from_metadata 90 = -90 ∧
    get_rotation_from_metadata 180 = 180 ∧
    get_rotation_from_metadata 270 = 90 ∧
    (∀ v : ℤ, v ≠ 90 → v ≠ 180 → v ≠ 270 → get_rotation_from_metadata v = 0) := by
  refine ⟨?_, rfl, rfl, rfl, fun v h90 h180 h270 => ?_⟩
  · simp [analyze_text_orientation_comparative, hc]
  · simp [get_rotation_from_metadata, h90, h180, h270]

/-- Witness for C10: a textless page whose rotation metadata is 90 yields
the (nonzero) metadata-derived delta. -/
theorem comparative_empty_uses_metadata_witness :
    analyze_text_orientation_comparative empty_page_rot90 [] =
      get_rotation_from_metadata empty_page_rot90.rotation ∧
    get_rotation_from_metadata 90 = -90 :=
  ⟨(comparative_empty_uses_metadata empty_page_rot90 [] rfl).1,
   (comparative_empty_uses_metadata empty_page_rot90 [] rfl).2.1⟩

/-! ### Helper lemmas about the minimization and maximization folds -/

/-- The keep-the-smaller fold never exceeds its initial accumulator. -/
lemma foldl_keepmin_le_init (ds : List ℝ) :
    ∀ d : ℝ, ds.foldl (fun b x => if x < b then x else b) d ≤ d := by
  induction ds with
  | nil => intro d; simp
  | cons x xs ih =>
      intro d
      simp only [List.foldl_cons]
      refine le_trans (ih _) ?_
      split_ifs with hx
      · exact le_of_lt hx
      · exact le_refl d

/-- The keep-the-smaller fold is a lower bound of every list element. -/
lemma foldl_keepmin_le_mem (ds : List ℝ) :
    ∀ d x : ℝ, x ∈ ds → ds.foldl (fun b x => if x < b then x else b) d ≤ x := by
  induction ds with
  | nil => intro d x hx; simp at hx
  | cons y ys ih =>
      intro d x hx
      simp only [List.foldl_cons]
      rcases List.mem_cons.mp hx with rfl | hmem
      · refine le_trans (foldl_keepmin_le_init ys _) ?_
        split_ifs with hy
        · exact le_refl x
        · exact le_of_not_lt hy
      · exact ih _ x hmem

/-- Any common lower bound of the initial accumulator and the list elements
bounds the keep-the-smaller fold from below. -/
lemma le_foldl_keepmin (ds : List ℝ) :
    ∀ d c : ℝ, c ≤ d → (∀ x ∈ ds, c ≤ x) →
      c ≤ ds.foldl (fun b x => if x < b then x else b) d := by
  induction ds with
  | nil => intro d c hc _; simpa using hc
  | cons y ys ih =>
      intro d c hc hall
      simp only [List.foldl_cons]
      refine ih _ c ?_ (fun x hx => hall x (List.mem_cons_of_mem y hx))
      split_ifs with hy
      · exact hall y (List.mem_cons_self _ _)
      · exact hc

/-- The keep-the-larger fold returns either its initial accumulator or a
list element. -/
lemma foldl_keepmax_mem (l : List (ℤ × ℝ)) :
    ∀ b : ℤ × ℝ,
      l.foldl (fun best x => if best.2 < x.2 then x else best) b ∈ b :: l := by
  induction l with
  | nil => intro b; simp
  | cons x xs ih =>
      intro b
      simp only [List.foldl_cons]
      have h := ih (if b.2 < x.2 then x else b)
      rcases List.mem_cons.mp h with heq | hmem
      · rw [heq]
        split_ifs
        · exact List.mem_cons_of_mem b (List.mem_cons_self _ _)
        · exact List.mem_cons_self _ _
      · exact List.mem_cons_of_mem b (List.mem_cons_of_mem x hmem)

/-! ### Helper lemmas about distances and similarity scores -/

/-- Distances are square roots, hence nonnegative. -/
lemma distance_nonneg (pos1 pos2 : Position) : 0 ≤ distance pos1 pos2 :=
  Real.sqrt_nonneg _

/-- Two positions with identical normalized coordinates are at distance 0. -/
lemma distance_eq_zero_of_same_coords (pos1 pos2 : Position)
    (hx : pos1.normalized_x = pos2.normalized_x)
    (hy : pos1.normalized_y = pos2.normalized_y) :
    distance pos1 pos2 = 0 := by
  simp [distance, hx, hy]

/-- Per-anchor similarity never exceeds 1. -/
lemma anchor_similarity_le_one (pos1 : Position) (positions2 : List Position) :
    anchor_similarity pos1 positions2 ≤ 1 := by
  unfold anchor_similarity
  cases positions2 with
  | nil => simp [best_distance]
  | cons q qs =>
      simp only [List.map_cons, best_distance]
      have hd : (0 : ℝ) ≤
          (qs.map (fun pos2 => distance pos1 pos2)).foldl
            (fun b x => if x < b then x else b) (distance pos1 q) := by
        refine le_foldl_keepmin _ _ _ (distance_nonneg _ _) ?_
        intro x hx
        obtain ⟨p2, _, rfl⟩ := List.mem_map.mp hx
        exact distance_nonneg _ _
      exact max_le (by norm_num) (by linarith)

/-- When the compared list contains a position with the same coordinates,
the per-anchor similarity is exactly 1. -/
lemma anchor_similarity_eq_one (pos1 : Position) (positions2 : List Position)
    (p : Position) (hp : p ∈ positions2)
    (hx : pos1.normalized_x = p.normalized_x)
    (hy : pos1.normalized_y = p.normalized_y) :
    anchor_similarity pos1 positions2 = 1 := by
  unfold anchor_similarity
  cases positions2 with
  | nil => simp at hp
  | cons q qs =>
      simp only [List.map_cons, best_distance]
      have hzero : distance pos1 p = 0 := distance_eq_zero_of_same_coords _ _ hx hy
      have hle : (qs.map (fun pos2 => distance pos1 pos2)).foldl
          (fun b x => if x < b then x else b) (distance pos1 q) ≤ 0 := by
        rcases List.mem_cons.mp hp with rfl | hmem
        · rw [← hzero]
          exact foldl_keepmin_le_init _ _
        · rw [← hzero]
          exact foldl_keepmin_le_mem _ _ _
            (List.mem_map.mpr ⟨p, hmem, rfl⟩)
      have hge : (0 : ℝ) ≤ (qs.map (fun pos2 => distance pos1 pos2)).foldl
          (fun b x => if x < b then x else b) (distance pos1 q) := by
        refine le_foldl_keepmin _ _ _ (distance_nonneg _ _) ?_
        intro x hx2
        obtain ⟨p2, _, rfl⟩ := List.mem_map.mp hx2
        exact distance_nonneg _ _
      rw [le_antisymm hle hge]
      norm_num

/-- Similarity scores never exceed 1. -/
lemma calculate_position_similarity_le_one (positions1 positions2 : List Position) :
    calculate_position_similarity positions1 positions2 ≤ 1 := by
  unfold calculate_position_similarity
  split_ifs with h
  · norm_num
  · push_neg at h
    obtain ⟨h1, _⟩ := h
    have hlen : (0 : ℝ) < positions1.length := by
      have := Nat.pos_of_ne_zero h1
      exact_mod_cast this
    rw [div_le_one hlen]
    have := List.sum_le_card_nsmul
      (positions1.map (fun pos1 => anchor_similarity pos1 positions2)) 1
      (by intro x hx
          obtain ⟨p, _, rfl⟩ := List.mem_map.mp hx
          exact anchor_similarity_le_one p positions2)
    simpa using this

/-- The comparator's best rotation is always one of the four candidates. -/
lemma py_max_four_mem (s0 s1 s2 s3 : ℝ) :
    py_max_by_val [(0, s0), (90, s1), (180, s2), (270, s3)] = 0 ∨
    py_max_by_val [(0, s0), (90, s1), (180, s2), (270, s3)] = 90 ∨
    py_max_by_val [(0, s0), (90, s1), (180, s2), (270, s3)] = 180 ∨
    py_max_by_val [(0, s0), (90, s1), (180, s2), (270, s3)] = 270 := by
  have h := foldl_keepmax_mem [(90, s1), (180, s2), (270, s3)] (0, s0)
  simp only [py_max_by_val]
  simp only [List.mem_cons, List.not_mem_nil, or_false] at h
  rcases h with h | h | h | h <;> rw [h]
  · exact Or.inl rfl
  · exact Or.inr (Or.inl rfl)
  · exact Or.inr (Or.inr (Or.inl rfl))
  · exact Or.inr (Or.inr (Or.inr rfl))

/-- When the first candidate's score is maximal, the first-seen-wins fold
returns the first candidate. -/
lemma py_max_four_first (s0 s1 s2 s3 : ℝ)
    (h1 : s1 ≤ s0) (h2 : s2 ≤ s0) (h3 : s3 ≤ s0) :
    py_max_by_val [(0, s0), (90, s1), (180, s2), (270, s3)] = 0 := by
  simp only [py_max_by_val, List.foldl_cons, List.foldl_nil]
  rw [if_neg (not_lt.mpr h1), if_neg (not_lt.mpr h2), if_neg (not_lt.mpr h3)]

/-- Characterization of Python's first-seen-wins max over the four candidate
scores: the returned key has a maximal score, and every candidate occurring
strictly earlier in the iteration order has a strictly smaller score. -/
lemma py_max_four_spec (sc : ℤ → ℝ) :
    ∃ b, (b = 0 ∨ b = 90 ∨ b = 180 ∨ b = 270) ∧
      py_max_by_val [(0, sc 0), (90, sc 90), (180, sc 180), (270, sc 270)] = b ∧
      (∀ r : ℤ, (r = 0 ∨ r = 90 ∨ r = 180 ∨ r = 270) → sc r ≤ sc b) ∧
      (∀ r : ℤ, (r = 0 ∨ r = 90 ∨ r = 180 ∨ r = 270) →
        rot_index r < rot_index b → sc r < sc b) := by
  simp only [py_max_by_val, List.foldl_cons, List.foldl_nil]
  split_ifs with h1 h2 h3 h4 h5 h6 h7 <;>
    (try dsimp only at *) <;>
    refine ⟨_, ?_, rfl, ?_, ?_⟩ <;>
    first
      | decide
      | (intro r hr
         rcases hr with rfl | rfl | rfl | rfl <;> linarith)
      | (intro r hr hidx
         rcases hr with rfl | rfl | rfl | rfl <;>
           first
             | linarith
             | norm_num [rot_index] at hidx)

/-- C2: for non-empty current and reference sets the Relative Comparator
scores the four candidate rotations in order 0, 90, 180, 270, picks the
strictly-highest-scoring candidate with first-seen-wins tie-breaking, and
returns `(best - 0) % 360` folded into `(-180, 180]`, i.e. `best` itself for
0/90/180 and -90 for 270. -/
theorem comparator_decision_spec (current reference : List Position)
    (hc : current ≠ []) (hr : reference ≠ []) :
    ∃ b, (b = 0 ∨ b = 90 ∨ b = 180 ∨ b = 270) ∧
      (∀ r : ℤ, (r = 0 ∨ r = 90 ∨ r = 180 ∨ r = 270) →
        rotation_score current reference r ≤ rotation_score current reference b) ∧
      (∀ r : ℤ, (r = 0 ∨ r = 90 ∨ r = 180 ∨ r = 270) →
        rot_index r < rot_index b →
        rotation_score current reference r < rotation_score current reference b) ∧
      compare_with_reference current reference =
        (if (b - 0) % 360 > 180 then (b - 0) % 360 - 360 else (b - 0) % 360) ∧
      ((b = 0 ∨ b = 90 ∨ b = 180) → compare_with_reference current reference = b) ∧
      (b = 270 → compare_with_reference current reference = -90) := by
  obtain ⟨b, hb, hpy, hmax, hfirst⟩ :=
    py_max_four_spec (rotation_score current reference)
  have hguard : ¬(current.length = 0 ∨ reference.length = 0) := by
    simp [List.length_eq_zero, hc, hr]
  simp only [rotation_score] at hpy
  have hcmp : compare_with_reference current reference =
      (if (b - 0) % 360 > 180 then (b - 0) % 360 - 360 else (b - 0) % 360) := by
    unfold compare_with_reference
    rw [if_neg hguard]
    simp only [List.map_cons, List.map_nil]
    rw [hpy]
  refine ⟨b, hb, hmax, hfirst, hcmp, ?_, ?_⟩
  · intro hb3
    rw [hcmp]
    rcases hb3 with rfl | rfl | rfl <;> decide
  · intro hb270
    rw [hcmp, hb270]
    decide

/-- Rotating by the 0-degree candidate keeps every coordinate and drops the
`original_bbox` entry. -/
lemma apply_rotation_zero (S : List Position) :
    apply_rotation_to_positions S 0 =
      S.map (fun pos => ⟨pos.text, pos.normalized_x, pos.normalized_y, none⟩) := by
  simp [apply_rotation_to_positions]

/-- C6: comparing a non-empty set against an identical copy of itself gives
per-anchor similarity 1 for every anchor under the 0-degree candidate, a
candidate score of 1, and a returned delta of 0. -/
theorem comparator_self_consistency (S : List Position) (hS : S ≠ []) :
    (∀ p ∈ apply_rotation_to_positions S 0, anchor_similarity p S = 1) ∧
    calculate_position_similarity (apply_rotation_to_positions S 0) S = 1 ∧
    compare_with_reference S S = 0 := by
  have hlen0 : S.length ≠ 0 := fun h => hS (List.length_eq_zero.mp h)
  have hanchor : ∀ p ∈ apply_rotation_to_positions S 0, anchor_similarity p S = 1 := by
    intro p hp
    rw [apply_rotation_zero] at hp
    obtain ⟨q, hq, rfl⟩ := List.mem_map.mp hp
    exact anchor_similarity_eq_one _ S q hq rfl rfl
  have hmaplen : (apply_rotation_to_positions S 0).length = S.length := by
    simp [apply_rotation_to_positions]
  have hscore : calculate_position_similarity (apply_rotation_to_positions S 0) S = 1 := by
    unfold calculate_position_similarity
    rw [if_neg (by simp [hmaplen, hlen0])]
    rw [List.sum_eq_card_nsmul _ 1 (by
      intro x hx
      obtain ⟨p, hp, rfl⟩ := List.mem_map.mp hx
      exact hanchor p hp)]
    simp only [List.length_map, hmaplen, nsmul_eq_mul, mul_one]
    exact div_self (by exact_mod_cast hlen0)
  have hguard : ¬(S.length = 0 ∨ S.length = 0) := by simp [hlen0]
  have hcompare : compare_with_reference S S = 0 := by
    unfold compare_with_reference
    rw [if_neg hguard]
    simp only [List.map_cons, List.map_nil]
    rw [hscore]
    rw [py_max_four_first 1 _ _ _
      (calculate_position_similarity_le_one _ _)
      (calculate_position_similarity_le_one _ _)
      (calculate_position_similarity_le_one _ _)]
    decide
  exact ⟨hanchor, hscore, hcompare⟩

/-- Witness for C6 at a concrete one-anchor set. -/
theorem comparator_self_consistency_witness :
    calculate_position_similarity
      (apply_rotation_to_positions [pos_center] 0) [pos_center] = 1 ∧
    compare_with_reference [pos_center] [pos_center] = 0 :=
  (comparator_self_consistency [pos_center] (by simp)).2

/-- Witness for C2 at a concrete one-anchor current and reference set. -/
theorem comparator_decision_spec_witness :
    ∃ b, (b = 0 ∨ b = 90 ∨ b = 180 ∨ b = 270) ∧
      (∀ r : ℤ, (r = 0 ∨ r = 90 ∨ r = 180 ∨ r = 270) →
        rotation_score [pos_center] [pos_lower_right] r ≤
        rotation_score [pos_center] [pos_lower_right] b) ∧
      (∀ r : ℤ, (r = 0 ∨ r = 90 ∨ r = 180 ∨ r = 270) →
        rot_index r < rot_index b →
        rotation_score [pos_center] [pos_lower_right] r <
        rotation_score [pos_center] [pos_lower_right] b) ∧
      compare_with_reference [pos_center] [pos_lower_right] =
        (if (b - 0) % 360 > 180 then (b - 0) % 360 - 360 else (b - 0) % 360) ∧
      ((b = 0 ∨ b = 90 ∨ b = 180) →
        compare_with_reference [pos_center] [pos_lower_right] = b) ∧
      (b = 270 → compare_with_reference [pos_center] [pos_lower_right] = -90) :=
  comparator_decision_spec [pos_center] [pos_lower_right] (by simp) (by simp)

/-- The Absolute Classifier only ever returns one of the four canonical
deltas. -/
lemma analyze_absolute_position_canonical (positions : List Position) :
    analyze_absolute_position positions = -90 ∨
    analyze_absolute_position positions = 0 ∨
    analyze_absolute_position positions = 90 ∨
    analyze_absolute_position positions = 180 := by
  simp only [analyze_absolute_position]
  split_ifs <;> simp

/-- The metadata fallback only ever returns one of the four canonical
deltas. -/
lemma get_rotation_from_metadata_canonical (v : ℤ) :
    get_rotation_from_metadata v = -90 ∨ get_rotation_from_metadata v = 0 ∨
    get_rotation_from_metadata v = 90 ∨ get_rotation_from_metadata v = 180 := by
  unfold get_rotation_from_metadata
  split_ifs <;> simp

/-- The Relative Comparator only ever returns one of the four canonical
deltas. -/
lemma compare_with_reference_canonical (current reference : List Position) :
    compare_with_reference current reference = -90 ∨
    compare_with_reference current reference = 0 ∨
    compare_with_reference current reference = 90 ∨
    compare_with_reference current reference = 180 := by
  unfold compare_with_reference
  by_cases h : current.length = 0 ∨ reference.length = 0
  · rw [if_pos h]
    simp
  · rw [if_neg h]
    simp only [List.map_cons, List.map_nil]
    rcases py_max_four_mem
        (calculate_position_similarity (apply_rotation_to_positions current 0) reference)
        (calculate_position_similarity (apply_rotation_to_positions current 90) reference)
        (calculate_position_similarity (apply_rotation_to_positions current 180) reference)
        (calculate_position_similarity (apply_rotation_to_positions current 270) reference)
      with hm | hm | hm | hm <;> rw [hm] <;> decide

/-- The comparative analysis path only ever returns one of the four
canonical deltas. -/
lemma comparative_canonical (page : Page) (reference : List Position) :
    analyze_text_orientation_comparative page reference = -90 ∨
    analyze_text_orientation_comparative page reference = 0 ∨
    analyze_text_orientation_comparative page reference = 90 ∨
    analyze_text_orientation_comparative page reference = 180 := by
  unfold analyze_text_orientation_comparative
  split_ifs with h1 h2
  · exact get_rotation_from_metadata_canonical _
  · exact compare_with_reference_canonical _ _
  · exact analyze_absolute_position_canonical _

/-- C7: every suggested delta produced by the page-analysis entry point, in
every detection mode and along every fallback path, is one of -90, 0, 90,
180. -/
theorem suggested_delta_canonical (st : DetState) (page : Page) :
    (analyze_text_orientation st page).1 = -90 ∨
    (analyze_text_orientation st page).1 = 0 ∨
    (analyze_text_orientation st page).1 = 90 ∨
    (analyze_text_orientation st page).1 = 180 := by
  obtain ⟨m, oref⟩ := st
  cases oref with
  | none =>
      unfold analyze_text_orientation
      dsimp only
      split_ifs with h1 h2 h3 h4 <;>
        dsimp only <;>
          first
            | exact analyze_absolute_position_canonical _
            | simp
  | some ref =>
      unfold analyze_text_orientation
      dsimp only
      split_ifs with h1 h2 <;>
        dsimp only <;>
          first
            | exact analyze_absolute_position_canonical _
            | exact comparative_canonical _ _

/-- The extractor's two-part guard (`text` truthy and `len(text) > 2`)
collapses to the length test alone, because a string longer than 2 is
nonempty. -/
lemma span_anchor_eq (pw ph ow oh : ℚ) (rot : ℤ) (span : Span) :
    span_anchor pw ph ow oh rot span =
      if 2 < (py_strip span.text).length then
        some (make_anchor pw ph ow oh rot span)
      else none := by
  unfold span_anchor
  by_cases h : 2 < (py_strip span.text).length
  · rw [if_pos h, if_pos]
    refine ⟨fun he => ?_, h⟩
    rw [he] at h
    exact absurd h (by decide)
  · rw [if_neg h, if_neg (fun hc => h hc.2)]

/-- `filterMap` distributes over `flatten`. -/
lemma filterMap_flatten_eq {α β : Type} (f : α → Option β) (l : List (List α)) :
    l.flatten.filterMap f = (l.map (fun s => s.filterMap f)).flatten := by
  induction l with
  | nil => rfl
  | cons x xs ih => simp [List.filterMap_append, ih]

/-- The nested block/line/span extraction loop equals a single `filterMap`
over the flattened span list. -/
lemma extract_blocks_eq (f : Span → Option Position) (blocks : List Block) :
    (blocks.map (fun block =>
      match block.lines with
      | none => []
      | some lines => (lines.map (fun line => line.filterMap f)).flatten)).flatten
    = (((blocks.filterMap Block.lines).flatten).flatten).filterMap f := by
  induction blocks with
  | nil => rfl
  | cons b bs ih =>
      cases hb : b.lines with
      | none => simp [hb, ih]
      | some lines => simp [hb, List.filterMap_append, ih, filterMap_flatten_eq]

/-- C9: the Position Extractor produces exactly one anchor per span whose
stripped text is strictly longer than 2 characters, and none for any span
whose stripped text has length at most 2. -/
theorem extractor_noise_filtering (page : Page) :
    extract_text_positions page =
      (page_spans page).filterMap (fun span =>
        if 2 < (py_strip span.text).length then
          some (make_anchor page.width page.height
            (page.mediabox.getD (page.width, page.height)).1
            (page.mediabox.getD (page.width, page.height)).2
            page.rotation span)
        else none) := by
  have h1 : extract_text_positions page =
      (page_spans page).filterMap (span_anchor page.width page.height
        (page.mediabox.getD (page.width, page.height)).1
        (page.mediabox.getD (page.width, page.height)).2 page.rotation) := by
    unfold extract_text_positions page_spans
    exact extract_blocks_eq _ page.blocks
  rw [h1]
  congr 1
  funext span
  exact span_anchor_eq _ _ _ _ _ span

/-- A page with no blocks extracts no positions. -/
lemma extract_empty_page : extract_text_positions empty_page = [] := rfl

/-- The single span of `lower_right_page` qualifies and produces the
anchor at (4/5, 4/5). -/
lemma span_anchor_lower_right :
    span_anchor 100 100 100 100 0 ⟨"sample text", ⟨70, 70, 90, 90⟩⟩ =
      some ⟨"sample text", 4/5, 4/5, some ⟨70, 70, 90, 90⟩⟩ := by
  rw [span_anchor_eq, if_pos (by decide)]
  norm_num [make_anchor, transform_coordinates_to_original, Position.mk.injEq]
  decide

/-- The single span of `lower_right_page` normalizes to the point
(4/5, 4/5). -/
lemma extract_lower_right :
    extract_text_positions lower_right_page =
      [⟨"sample text", 4/5, 4/5, some ⟨70, 70, 90, 90⟩⟩] := by
  simp [extract_text_positions, lower_right_page, List.filterMap_cons,
    span_anchor_lower_right]

/-- Counterexample for C4: in RELATIVE mode (method 2), a first page with an
empty observation returns delta 0 but stores `[]` as the reference
(`_reference_positions` is assigned before its truthiness is checked), so a
later page with a non-empty observation is not captured as a reference and
not given the bootstrap delta 0: it goes through the comparative path with
the empty reference and gets the absolute classification (here 180), and the
reference stays `[]`. -/
theorem relative_bootstrap_retry_counterexample :
    (analyze_text_orientation ⟨2, none⟩ empty_page).1 = 0 ∧
    (analyze_text_orientation ⟨2, none⟩ empty_page).2.reference_positions = some [] ∧
    (analyze_text_orientation
      (analyze_text_orientation ⟨2, none⟩ empty_page).2 lower_right_page).1 = 180 ∧
    (analyze_text_orientation
      (analyze_text_orientation ⟨2, none⟩ empty_page).2
      lower_right_page).2.reference_positions = some [] := by
  have h1 : analyze_text_orientation ⟨2, none⟩ empty_page =
      ((0 : ℤ), (⟨2, some []⟩ : DetState)) := by
    simp [analyze_text_orientation, extract_empty_page, analyze_absolute_position]
  have h2 : analyze_text_orientation ⟨2, some []⟩ lower_right_page =
      ((180 : ℤ), (⟨2, some []⟩ : DetState)) := by
    simp only [analyze_text_orientation, analyze_text_orientation_comparative,
      extract_lower_right]
    norm_num [analyze_absolute_position]
  rw [h1]
  exact ⟨rfl, rfl, by rw [h2], by rw [h2]⟩

/-- C4 (amended): in RELATIVE mode, and identically in AUTO mode, a page
processed with no ReferenceSet and an empty extraction returns delta 0 (the
absolute fallback on the empty observation) and stores the empty list as the
reference, so capture is never retried; with a non-empty extraction the
reference is captured and the bootstrap delta 0 returned; once the reference
holds `ref`, every page goes through the comparative path unchanged, and a
page with a non-empty extraction compared against a non-empty `ref` is
decided by the Relative Comparator; against the stored empty reference a
page with a non-empty extraction falls back to the Absolute Classifier. -/
theorem relative_bootstrap_amended (st : DetState) (page : Page)
    (hm : st.detection_method = 2 ∨ st.detection_method = 3) :
    (st.reference_positions = none → extract_text_positions page = [] →
      analyze_text_orientation st page = (0, ⟨st.detection_method, some []⟩)) ∧
    (st.reference_positions = none → extract_text_positions page ≠ [] →
      analyze_text_orientation st page =
        (0, ⟨st.detection_method, some (extract_text_positions page)⟩)) ∧
    (∀ ref : List Position, st.reference_positions = some ref →
      analyze_text_orientation st page =
        (analyze_text_orientation_comparative page ref, st)) ∧
    (∀ ref : List Position, ref ≠ [] → extract_text_positions page ≠ [] →
      analyze_text_orientation_comparative page ref =
        compare_with_reference (extract_text_positions page) ref) ∧
    (∀ page2 : Page, extract_text_positions page2 ≠ [] →
      analyze_text_orientation ⟨st.detection_method, some []⟩ page2 =
        (analyze_absolute_position (extract_text_positions page2),
         ⟨st.detection_method, some []⟩)) := by
  have hm1 : st.detection_method ≠ 1 := by rcases hm with hm | hm <;> rw [hm] <;> decide
  refine ⟨?_, ?_, ?_, ?_, ?_⟩
  · intro href hext
    rcases hm with hm | hm <;>
      simp [analyze_text_orientation, hm, href, hext, analyze_absolute_position]
  · intro href hext
    rcases hm with hm | hm <;>
      simp [analyze_text_orientation, hm, href, hext]
  · intro ref href
    rcases hm with hm | hm <;>
      simp [analyze_text_orientation, hm, href]
  · intro ref href hext
    simp [analyze_text_orientation_comparative, href, hext]
  · intro page2 hext
    rcases hm with hm | hm <;>
      simp [analyze_text_orientation, analyze_text_orientation_comparative,
        hm, hext]

/-- Witness for the amended C4: method 2 on the empty page stores the empty
reference and returns 0. -/
theorem relative_bootstrap_amended_witness :
    analyze_text_orientation ⟨2, none⟩ empty_page =
      (0, ⟨(⟨2, none⟩ : DetState).detection_method, some []⟩) :=
  (relative_bootstrap_amended ⟨2, none⟩ empty_page (Or.inl rfl)).1
    rfl extract_empty_page
